import Mathlib

/-!
Verification of the uchitil-live transcript-summarization backend.

The definitions below are a shallow embedding of the Python source:
- `clampParams` embeds the parameter validation and clamping in
  `backend/app/main.py`, `SummaryProcessor.process_transcript` (lines 160-175);
- `windowChunks` embeds the chunk splitting in
  `backend/app/transcript_processor.py`, `TranscriptProcessor.process_transcript`
  (lines 195-205), where `pyRange` models Python's `range(0, n, step)`;
- the data model (`Block`, `Section`, `SummaryResponse`, ...) embeds the
  pydantic models of `transcript_processor.py`;
- `aggregate` embeds the chunk-aggregation loop of
  `process_transcript_background` in `main.py` (lines 325-398);
- `flattenSections` embeds the notes flattening in `get_summary`
  (`main.py` lines 576-609);
- `runPipeline` embeds the control flow of `process_transcript_background`
  (`main.py` lines 276-464), with the provider calls abstracted by an oracle.
-/

namespace Uchitil

/-! ### Windower -/

/-- One step of Python's `range(start, stop, step)` iteration, with explicit
fuel so the recursion is structural.  `fuel ≥ stop - start` suffices for the
fuel never to run out when `step ≥ 1`. -/
def rangeStepAux (step : Nat) : Nat → Nat → Nat → List Nat
  | 0, _, _ => []
  | fuel + 1, start, stop =>
    if start < stop then start :: rangeStepAux step fuel (start + step) stop
    else []

/-- Python's `range(0, stop, step)` for `step ≥ 1` (the only way the source
calls it); `step = 0` is mapped to the empty list. -/
def pyRange (stop step : Nat) : List Nat :=
  if step = 0 then [] else rangeStepAux step stop 0 stop

/-- Parameter validation and clamping from `SummaryProcessor.process_transcript`
(`main.py` lines 164-175): reject non-positive `chunk_size` and negative
`overlap`, clamp `overlap` to `chunk_size - 1`, and repair `chunk_size` if the
step is still non-positive. -/
def clampParams (chunkSize overlap : Int) : Except String (Int × Int) :=
  if chunkSize ≤ 0 then .error "chunk_size must be positive"
  else if overlap < 0 then .error "overlap must be non-negative"
  else
    let overlap2 := if chunkSize ≤ overlap then chunkSize - 1 else overlap
    let stepSize := chunkSize - overlap2
    let chunkSize2 := if stepSize ≤ 0 then overlap2 + 1 else chunkSize
    .ok (chunkSize2, overlap2)

/-- The chunk list `[text[i : i + chunk_size] for i in range(0, len(text), step)]`
(`transcript_processor.py` line 203). -/
def makeChunks (text : List Char) (width step : Nat) : List (List Char) :=
  (pyRange text.length step).map fun i => (text.drop i).take width

/-- The windowing step of `TranscriptProcessor.process_transcript`
(`transcript_processor.py` lines 195-203): compute `step = chunk_size - overlap`,
adjust `overlap` if the step is non-positive, then slice. -/
def windowChunks (text : List Char) (chunkSize overlap : Int) : List (List Char) :=
  let step := chunkSize - overlap
  let q :=
    if step ≤ 0 then
      (chunkSize - max 0 (chunkSize - 100), max 0 (chunkSize - 100))
    else (step, overlap)
  makeChunks text chunkSize.toNat q.1.toNat

/-- The composite Windower: `main.py` validation and clamping followed by the
`transcript_processor.py` splitting. -/
def windower (text : List Char) (chunkSize overlap : Int) :
    Except String (List (List Char)) :=
  match clampParams chunkSize overlap with
  | .error e => .error e
  | .ok p => .ok (windowChunks text p.1 p.2)

/-! ### Arithmetic facts about `pyRange` -/

lemma ceil_div_shift (a step : Nat) (h : 0 < step) (ha : 1 ≤ a) :
    (a + step - 1) / step = (a - step + step - 1) / step + 1 := by
  have h1 : a + step - 1 = (a - 1) + step := by omega
  rw [h1, Nat.add_div_right _ h]
  congr 1
  rcases le_or_lt step a with hle | hlt
  · congr 1
    omega
  · have h2 : a - step = 0 := by omega
    rw [h2, Nat.div_eq_of_lt (by omega), Nat.div_eq_of_lt (by omega)]

lemma rangeStepAux_correct (step : Nat) (h : 0 < step) (fuel : Nat) :
    ∀ start stop : Nat, stop - start ≤ fuel →
      rangeStepAux step fuel start stop
        = (List.range ((stop - start + step - 1) / step)).map
            (fun k => start + k * step) := by
  induction fuel with
  | zero =>
    intro start stop hf
    have h0 : stop - start = 0 := by omega
    simp only [rangeStepAux]
    rw [h0, Nat.zero_add, Nat.div_eq_of_lt (by omega)]
    simp
  | succ fuel ih =>
    intro start stop hf
    simp only [rangeStepAux]
    by_cases hlt : start < stop
    · rw [if_pos hlt, ih (start + step) stop (by omega)]
      have hshift : (stop - start + step - 1) / step
          = (stop - (start + step) + step - 1) / step + 1 := by
        have hs : stop - (start + step) = (stop - start) - step := by omega
        rw [hs]
        exact ceil_div_shift (stop - start) step h (by omega)
      rw [hshift, List.range_succ_eq_map]
      simp only [List.map_cons, List.map_map]
      congr 1
      · simp
      · apply List.map_congr_left
        intro k _
        simp only [Function.comp_apply, Nat.succ_eq_add_one]
        ring
    · rw [if_neg hlt]
      have h0 : stop - start = 0 := by omega
      rw [h0, Nat.zero_add, Nat.div_eq_of_lt (by omega)]
      simp

lemma pyRange_eq (stop step : Nat) (h : 0 < step) :
    pyRange stop step = (List.range ((stop + step - 1) / step)).map (· * step) := by
  unfold pyRange
  rw [if_neg (by omega), rangeStepAux_correct step h stop 0 stop (by omega)]
  simp

lemma pyRange_length (stop step : Nat) (h : 0 < step) :
    (pyRange stop step).length = (stop + step - 1) / step := by
  rw [pyRange_eq stop step h, List.length_map, List.length_range]

lemma lt_pyRange_length_iff (stop step : Nat) (h : 0 < step) (i : Nat) :
    i < (pyRange stop step).length ↔ i * step < stop := by
  rw [pyRange_length stop step h, Nat.lt_iff_add_one_le,
    Nat.le_div_iff_mul_le h, Nat.add_one_mul]
  generalize i * step = m
  omega

lemma pyRange_getElem (stop step : Nat) (h : 0 < step) (i : Nat)
    (hi : i < (pyRange stop step).length) :
    (pyRange stop step)[i] = i * step := by
  simp only [pyRange_eq stop step h, List.getElem_map, List.getElem_range]

/-! ### Data model

The pydantic models of `transcript_processor.py` (lines 32-87). -/

/-- The `Literal["bullet", "heading1", "heading2", "text"]` type of `Block.type`. -/
inductive BlockType where
  | text
  | bullet
  | heading1
  | heading2
deriving DecidableEq, Repr

/-- `Block` (`transcript_processor.py` lines 32-49). -/
structure Block where
  id : String
  type : BlockType
  content : String
  color : String
deriving DecidableEq, Repr

/-- `Section` (`transcript_processor.py` lines 52-56). -/
structure Section where
  title : String
  blocks : List Block
deriving DecidableEq, Repr

/-- `SessionNotes` (`transcript_processor.py` lines 59-63). -/
structure SessionNotes where
  session_name : String
  sections : List Section
deriving DecidableEq, Repr

/-- `SummaryResponse` (`transcript_processor.py` lines 73-87), the validated
per-chunk structured summary.  `People` is a pydantic model with the same
fields as `Section`, so it is embedded as a `Section`. -/
structure SummaryResponse where
  SessionName : String
  LanguageFocus : String
  People : Section
  VocabularyLearned : Section
  GrammarPoints : Section
  PronunciationNotes : Section
  ConversationTopics : Section
  CorrectionsMade : Section
  KeyPhrases : Section
  Homework : Section
  ProgressNotes : Section
  SessionNotes : SessionNotes
deriving DecidableEq, Repr

/-- The `final_summary` dictionary built by `process_transcript_background`
(`main.py` lines 310-323), restricted to the keys the aggregation loop writes.
The derived `MeetingName`/`MeetingNotes` compatibility aliases (lines 400-405)
are copies of `SessionName`/`SessionNotes` and are not modelled separately. -/
structure FinalSummary where
  SessionName : String
  LanguageFocus : String
  People : Section
  VocabularyLearned : Section
  GrammarPoints : Section
  PronunciationNotes : Section
  ConversationTopics : Section
  CorrectionsMade : Section
  KeyPhrases : Section
  Homework : Section
  ProgressNotes : Section
  SessionNotes : SessionNotes
deriving DecidableEq, Repr

/-! ### Aggregator -/

/-- The duplicate-title merge of `main.py` lines 375-380: append `blocks` to the
first section of the list whose title equals `title` exactly (the loop breaks
after the first match). -/
def addToFirstMatch : List Section → String → List Block → List Section
  | [], _, _ => []
  | s :: rest, title, blocks =>
    if s.title = title then { s with blocks := s.blocks ++ blocks } :: rest
    else s :: addToFirstMatch rest title blocks

/-- `main.py` lines 374-390: if a section with exactly this title already exists
in the cumulative `SessionNotes.sections`, extend its blocks; otherwise append a
new section at the end. -/
def mergeIntoNotes (secs : List Section) (title : String) (blocks : List Block) :
    List Section :=
  if secs.any fun s => s.title = title then addToFirstMatch secs title blocks
  else secs ++ [⟨title, blocks⟩]

/-- One iteration of the aggregation loop of `process_transcript_background`
(`main.py` lines 325-390) on a successfully parsed chunk summary `s`:
last-non-empty-wins for the two scalar fields and for
`SessionNotes.session_name`, extension of `SessionNotes.sections` by the
chunk's own notes sections, then, for each of the nine fixed keys in source
order, extension of the fixed section's blocks and the exact-title merge into
`SessionNotes.sections`. -/
def processChunk (acc : FinalSummary) (s : SummaryResponse) : FinalSummary :=
  let sn := if s.SessionName = "" then acc.SessionName else s.SessionName
  let lf := if s.LanguageFocus = "" then acc.LanguageFocus else s.LanguageFocus
  let nm :=
    if s.SessionNotes.session_name = "" then acc.SessionNotes.session_name
    else s.SessionNotes.session_name
  let n0 := acc.SessionNotes.sections ++ s.SessionNotes.sections
  let n1 := mergeIntoNotes n0 s.People.title s.People.blocks
  let n2 := mergeIntoNotes n1 s.VocabularyLearned.title s.VocabularyLearned.blocks
  let n3 := mergeIntoNotes n2 s.GrammarPoints.title s.GrammarPoints.blocks
  let n4 := mergeIntoNotes n3 s.PronunciationNotes.title s.PronunciationNotes.blocks
  let n5 := mergeIntoNotes n4 s.ConversationTopics.title s.ConversationTopics.blocks
  let n6 := mergeIntoNotes n5 s.CorrectionsMade.title s.CorrectionsMade.blocks
  let n7 := mergeIntoNotes n6 s.KeyPhrases.title s.KeyPhrases.blocks
  let n8 := mergeIntoNotes n7 s.Homework.title s.Homework.blocks
  let n9 := mergeIntoNotes n8 s.ProgressNotes.title s.ProgressNotes.blocks
  { SessionName := sn
    LanguageFocus := lf
    People := ⟨acc.People.title, acc.People.blocks ++ s.People.blocks⟩
    VocabularyLearned :=
      ⟨acc.VocabularyLearned.title, acc.VocabularyLearned.blocks ++ s.VocabularyLearned.blocks⟩
    GrammarPoints := ⟨acc.GrammarPoints.title, acc.GrammarPoints.blocks ++ s.GrammarPoints.blocks⟩
    PronunciationNotes :=
      ⟨acc.PronunciationNotes.title, acc.PronunciationNotes.blocks ++ s.PronunciationNotes.blocks⟩
    ConversationTopics :=
      ⟨acc.ConversationTopics.title, acc.ConversationTopics.blocks ++ s.ConversationTopics.blocks⟩
    CorrectionsMade :=
      ⟨acc.CorrectionsMade.title, acc.CorrectionsMade.blocks ++ s.CorrectionsMade.blocks⟩
    KeyPhrases := ⟨acc.KeyPhrases.title, acc.KeyPhrases.blocks ++ s.KeyPhrases.blocks⟩
    Homework := ⟨acc.Homework.title, acc.Homework.blocks ++ s.Homework.blocks⟩
    ProgressNotes := ⟨acc.ProgressNotes.title, acc.ProgressNotes.blocks ++ s.ProgressNotes.blocks⟩
    SessionNotes := ⟨nm, n9⟩ }

/-- The initial `final_summary` value (`main.py` lines 310-323). -/
def initialFinal : FinalSummary where
  SessionName := ""
  LanguageFocus := ""
  People := ⟨"People", []⟩
  VocabularyLearned := ⟨"Vocabulary Learned", []⟩
  GrammarPoints := ⟨"Grammar Points", []⟩
  PronunciationNotes := ⟨"Pronunciation Notes", []⟩
  ConversationTopics := ⟨"Conversation Topics", []⟩
  CorrectionsMade := ⟨"Corrections Made", []⟩
  KeyPhrases := ⟨"Key Phrases", []⟩
  Homework := ⟨"Homework", []⟩
  ProgressNotes := ⟨"Progress Notes", []⟩
  SessionNotes := ⟨"", []⟩

/-- The whole aggregation loop of `process_transcript_background`
(`main.py` lines 325-398) over the ordered list of successful chunk summaries. -/
def aggregate (summaries : List SummaryResponse) : FinalSummary :=
  summaries.foldl processChunk initialFinal

/-! ### Python string helpers

Character-level embeddings of the Python `str` builtins the source uses, kept
structural so that concrete instances evaluate inside the kernel. -/

/-- Python `str.lower()` for the ASCII strings appearing in the source. -/
def pyLower (s : String) : String :=
  String.mk (s.data.map Char.toLower)

/-- Left-to-right non-overlapping replacement on character lists; the fuel is
the length of the scanned list, which each step consumes at least one of. -/
def replaceFuel (pat rep : List Char) : Nat → List Char → List Char
  | _, [] => []
  | 0, l => l
  | fuel + 1, c :: rest =>
    if pat ≠ [] ∧ pat.isPrefixOf (c :: rest) then
      rep ++ replaceFuel pat rep fuel ((c :: rest).drop pat.length)
    else c :: replaceFuel pat rep fuel rest

/-- Python `str.replace(pat, rep)`. -/
def pyReplace (s pat rep : String) : String :=
  String.mk (replaceFuel pat.data rep.data s.data.length s.data)

/-- Python `s[:n]`. -/
def pyTake (s : String) (n : Nat) : String :=
  String.mk (s.data.take n)

/-- Python `s.startswith(pre)`. -/
def pyStartsWith (s pre : String) : Bool :=
  pre.data.isPrefixOf s.data

/-- The characters stripped by Python's `str.strip()`. -/
def pyIsSpace (c : Char) : Bool :=
  c = ' ' || c = '\t' || c = '\n' || c = '\r' || c = '\x0b' || c = '\x0c'

/-- The error sanitization of `DatabaseManager.update_process`
(`db.py` line 396): newlines to spaces, carriage returns removed, first 1000
characters. -/
def sanitizeError (e : String) : String :=
  pyTake (pyReplace (pyReplace e "\n" " ") "\r" "") 1000

/-! ### Flattened notes view (`get_summary`) -/

/-- The title normalization of `get_summary` (`main.py` lines 594-599):
lowercase, then `" & " -> "_"`, then `" " -> "_"`. -/
def normalizeTitle (t : String) : String :=
  pyReplace (pyReplace (pyLower t) " & " "_") " " "_"

/-- The flattening loop of `get_summary` (`main.py` lines 583-609): walk the
notes sections with their positional index, normalize each title into a key,
disambiguate an already-used key by suffixing `_index`, and record the
resulting `(key, section)` entries in order. -/
def flattenAux : List Section → Nat → List String → List (String × Section)
  | [], _, _ => []
  | s :: rest, idx, used =>
    let base := normalizeTitle s.title
    let key := if base ∈ used then base ++ "_" ++ toString idx else base
    (key, s) :: flattenAux rest (idx + 1) (key :: used)

/-- The flattened notes view (`transformed_data` without the `_section_order`
bookkeeping, which is `(flattenSections secs).map Prod.fst`). -/
def flattenSections (secs : List Section) : List (String × Section) :=
  flattenAux secs 0 []

/-! ### Process record and pipeline -/

/-- The fields of a summary-process record that the background pipeline writes
(`db.py` `update_process`): `status`, `result`, sanitized `error`, and
`chunk_count`. -/
structure ProcessRecord where
  status : String
  result : Option FinalSummary
  error : Option String
  chunk_count : Option Nat
deriving DecidableEq, Repr

/-- The record written by `update_process(process_id, status="failed", error=e)`
(`main.py` lines 426-428, 441-443, 457-459): no result and no chunk count. -/
def failedRec (e : String) : ProcessRecord :=
  ⟨"failed", none, some (sanitizeError e), none⟩

/-- The record written by
`update_process(process_id, status="completed", result=json.dumps(final_summary))`
(`main.py` lines 420-422): no error and no chunk count. -/
def completedRec (d : FinalSummary) : ProcessRecord :=
  ⟨"completed", some d, none, none⟩

/-- The error message of `main.py` line 425. -/
def noChunksErr : String :=
  "Summary generation failed: No chunks were processed successfully. Check logs for specific errors."

/-- The terminal update of `process_transcript_background` (`main.py`
lines 418-431): completed with the aggregated document when at least one chunk
succeeded, failed otherwise. -/
def finishJob (successes : List SummaryResponse) : ProcessRecord :=
  if successes.isEmpty then failedRec noChunksErr
  else completedRec (aggregate successes)

/-- The per-chunk loop of `TranscriptProcessor.process_transcript`
(`transcript_processor.py` lines 207-296): the provider call for chunk `i` is
abstracted by `oracle i chunk`, which returns `none` when the call raised a
chunk-level error (caught and logged by the loop) and `some summary` when it
produced a validated summary. -/
def runChunks (oracle : Nat → List Char → Option SummaryResponse) :
    Nat → List (List Char) → List SummaryResponse
  | _, [] => []
  | i, c :: rest =>
    match oracle i c with
    | some s => s :: runChunks oracle (i + 1) rest
    | none => runChunks oracle (i + 1) rest

/-- The Chunk Extractor output (`transcript_processor.py` line 298): the total
number of chunks and the ordered list of successful summaries. -/
def extractChunks (oracle : Nat → List Char → Option SummaryResponse)
    (chunks : List (List Char)) : Nat × List SummaryResponse :=
  (chunks.length, runChunks oracle 0 chunks)

/-- `provider_names.get(model, model)` (`main.py` lines 291-297). -/
def providerDisplayName (m : String) : String :=
  if m = "claude" then "Anthropic"
  else if m = "groq" then "Groq"
  else if m = "openai" then "OpenAI"
  else m

/-- The hosted providers checked at `main.py` line 287. -/
def hostedProviders : List String := ["claude", "groq", "openai"]

/-- Chunking plus extraction plus the terminal update, as driven by
`process_transcript_background` after all pre-flight checks passed.  Returns
the written record and the number of chunks attempted. -/
def runJob (oracle : Nat → List Char → Option SummaryResponse)
    (text : List Char) (chunkSize overlap : Int) : ProcessRecord × Nat :=
  let chunks := windowChunks text chunkSize overlap
  let successes := runChunks oracle 0 chunks
  (finishJob successes, chunks.length)

/-- The control flow of `process_transcript_background` (`main.py`
lines 276-464), with provider calls abstracted by `oracle` and the credential
store by `keys`: empty/whitespace-only text check, hosted-credential check,
parameter validation and clamping (`SummaryProcessor.process_transcript`),
provider dispatch with the Ollama window override
(`transcript_processor.py` lines 141-184), then windowing, extraction and the
terminal record update.  `ValueError`s raised anywhere in this flow are caught
and written as a failed record (`main.py` lines 433-448). -/
def runPipeline (keys : String → Option String)
    (oracle : Nat → List Char → Option SummaryResponse)
    (text : List Char) (model modelName : String)
    (chunkSize overlap : Int) : ProcessRecord × Nat :=
  if text.all pyIsSpace then (failedRec "Empty transcript text provided", 0)
  else if model ∈ hostedProviders ∧ keys model = none then
    (failedRec
      (providerDisplayName model
        ++ " API key not configured. Please set your API key in the model settings."), 0)
  else
    match clampParams chunkSize overlap with
    | .error e => (failedRec e, 0)
    | .ok p =>
      if model ∈ hostedProviders then runJob oracle text p.1 p.2
      else if model = "ollama" then
        let q :=
          if pyStartsWith (pyLower modelName) "phi4" ∨ pyStartsWith (pyLower modelName) "llama"
          then ((10000 : Int), (1000 : Int))
          else ((30000 : Int), (1000 : Int))
        runJob oracle text q.1 q.2
      else (failedRec ("Unsupported model provider: " ++ model), 0)

/-! ### Concrete sample inputs

Used by witnesses and counterexamples. -/

/-- A chunk summary with the standard section titles and no content. -/
def stdSummary : SummaryResponse where
  SessionName := ""
  LanguageFocus := ""
  People := ⟨"People", []⟩
  VocabularyLearned := ⟨"Vocabulary Learned", []⟩
  GrammarPoints := ⟨"Grammar Points", []⟩
  PronunciationNotes := ⟨"Pronunciation Notes", []⟩
  ConversationTopics := ⟨"Conversation Topics", []⟩
  CorrectionsMade := ⟨"Corrections Made", []⟩
  KeyPhrases := ⟨"Key Phrases", []⟩
  Homework := ⟨"Homework", []⟩
  ProgressNotes := ⟨"Progress Notes", []⟩
  SessionNotes := ⟨"", []⟩

/-- A chunk summary contributing exactly one Vocabulary block tagged with the
chunk index. -/
def vocabSummary (i : Nat) : SummaryResponse :=
  { stdSummary with
      VocabularyLearned := ⟨"Vocabulary Learned", [⟨toString i, .bullet, "word", ""⟩]⟩ }

/-- A chunk summary whose Key Phrases section is titled `"Key Phrases"`. -/
def kpSummaryUpper (b : Block) : SummaryResponse :=
  { stdSummary with KeyPhrases := ⟨"Key Phrases", [b]⟩ }

/-- A chunk summary whose Key Phrases section is titled `"Key phrases"`
(differing only in letter case). -/
def kpSummaryLower (b : Block) : SummaryResponse :=
  { stdSummary with KeyPhrases := ⟨"Key phrases", [b]⟩ }

/-- A concrete block. -/
def cBlock1 : Block := ⟨"a", .bullet, "hola", ""⟩

/-- Another concrete block. -/
def cBlock2 : Block := ⟨"b", .bullet, "adios", ""⟩

/-- A credential store holding a key only for `claude`. -/
def keysClaudeOnly : String → Option String :=
  fun m => if m = "claude" then some "k" else none

/-- A credential store holding no key at all. -/
def keysNone : String → Option String := fun _ => none

/-- An oracle that fails on chunk index 2 and succeeds elsewhere. -/
def oracleFailThird : Nat → List Char → Option SummaryResponse :=
  fun i _ => if i = 2 then none else some (vocabSummary i)

/-- A ten-character transcript, giving 5 chunks at width 2, overlap 0. -/
def textTen : List Char := "abcdefghij".data

/-! ### Aggregation lemmas -/

lemma processChunk_SessionName (acc : FinalSummary) (s : SummaryResponse) :
    (processChunk acc s).SessionName
      = if s.SessionName = "" then acc.SessionName else s.SessionName := rfl

lemma processChunk_LanguageFocus (acc : FinalSummary) (s : SummaryResponse) :
    (processChunk acc s).LanguageFocus
      = if s.LanguageFocus = "" then acc.LanguageFocus else s.LanguageFocus := rfl

lemma processChunk_vocab (acc : FinalSummary) (s : SummaryResponse) :
    (processChunk acc s).VocabularyLearned
      = ⟨acc.VocabularyLearned.title,
          acc.VocabularyLearned.blocks ++ s.VocabularyLearned.blocks⟩ := rfl

/-- The scalar update of the aggregation loop, keeping the previous value when
the chunk's value is empty. -/
def keepNonEmpty (a x : String) : String := if x = "" then a else x

lemma foldl_keepNonEmpty_eq_getLastD :
    ∀ (l : List String) (a : String),
      l.foldl keepNonEmpty a = (l.filter fun x => x ≠ "").getLastD a := by
  intro l
  induction l with
  | nil => intro a; rfl
  | cons x rest ih =>
    intro a
    by_cases hx : x = ""
    · subst hx
      rw [List.foldl_cons]
      have h1 : keepNonEmpty a "" = a := rfl
      have h2 : ("" :: rest).filter (fun y => y ≠ "") = rest.filter (fun y => y ≠ "") := by
        simp
      rw [h1, h2, ih a]
    · rw [List.foldl_cons]
      have h1 : keepNonEmpty a x = x := by simp [keepNonEmpty, hx]
      have h2 : (x :: rest).filter (fun y => y ≠ "") = x :: rest.filter (fun y => y ≠ "") := by
        simp [List.filter_cons, hx]
      rw [h1, h2, ih x, List.getLastD_cons]

lemma foldl_SessionName :
    ∀ (l : List SummaryResponse) (acc : FinalSummary),
      (l.foldl processChunk acc).SessionName
        = (l.map (·.SessionName)).foldl keepNonEmpty acc.SessionName := by
  intro l
  induction l with
  | nil => intro acc; rfl
  | cons s rest ih =>
    intro acc
    rw [List.foldl_cons, List.map_cons, List.foldl_cons, ih,
      processChunk_SessionName]
    rfl

lemma foldl_LanguageFocus :
    ∀ (l : List SummaryResponse) (acc : FinalSummary),
      (l.foldl processChunk acc).LanguageFocus
        = (l.map (·.LanguageFocus)).foldl keepNonEmpty acc.LanguageFocus := by
  intro l
  induction l with
  | nil => intro acc; rfl
  | cons s rest ih =>
    intro acc
    rw [List.foldl_cons, List.map_cons, List.foldl_cons, ih,
      processChunk_LanguageFocus]
    rfl

lemma foldl_vocab_blocks :
    ∀ (l : List SummaryResponse) (acc : FinalSummary),
      (l.foldl processChunk acc).VocabularyLearned.blocks
        = acc.VocabularyLearned.blocks
            ++ (l.map (·.VocabularyLearned.blocks)).flatten := by
  intro l
  induction l with
  | nil => intro acc; simp
  | cons s rest ih =>
    intro acc
    rw [List.foldl_cons, List.map_cons, List.flatten_cons, ih, processChunk_vocab]
    simp [List.append_assoc]

lemma foldl_vocab_title :
    ∀ (l : List SummaryResponse) (acc : FinalSummary),
      (l.foldl processChunk acc).VocabularyLearned.title
        = acc.VocabularyLearned.title := by
  intro l
  induction l with
  | nil => intro acc; rfl
  | cons s rest ih =>
    intro acc
    rw [List.foldl_cons, ih, processChunk_vocab]

lemma join_singletons_length {α : Type} :
    ∀ L : List (List α), (∀ x ∈ L, x.length = 1) → L.flatten.length = L.length := by
  intro L
  induction L with
  | nil => intro _; rfl
  | cons x rest ih =>
    intro h
    obtain ⟨a, rfl⟩ := List.length_eq_one.mp (h x (by simp))
    simp only [List.flatten_cons, List.singleton_append, List.length_cons]
    rw [ih fun y hy => h y (by simp [hy])]

lemma join_singletons_getElem {α : Type} :
    ∀ (L : List (List α)) (_ : ∀ x ∈ L, x.length = 1) (i : Nat)
      (h1 : i < L.flatten.length) (h2 : i < L.length), L.flatten[i] ∈ L[i] := by
  intro L
  induction L with
  | nil => intro _ i h1 h2; simp at h2
  | cons x rest ih =>
    intro h i h1 h2
    obtain ⟨a, rfl⟩ := List.length_eq_one.mp (h x (by simp))
    match i with
    | 0 => simp
    | i + 1 =>
      simp only [List.flatten_cons, List.singleton_append, List.getElem_cons_succ]
      exact ih (fun y hy => h y (by simp [hy])) i
        (by simpa using h1) (by simpa using h2)

/-! ### Claim theorems -/

/-- **C2.** For every job that reaches the end of chunk processing, the record
transitions to completed exactly when at least one chunk succeeded (carrying
the aggregated final document), and to failed exactly when zero chunks
succeeded (carrying the no-chunks error message); no other terminal outcome
exists (`main.py` lines 418-431). -/
theorem spec_c2_terminal (l : List SummaryResponse) :
    ((finishJob l).status = "completed" ↔ l ≠ []) ∧
    ((finishJob l).status = "failed" ↔ l = []) ∧
    ((l = [] ∧ finishJob l = failedRec noChunksErr) ∨
      (l ≠ [] ∧ finishJob l = completedRec (aggregate l))) := by
  match l with
  | [] =>
    refine ⟨?_, ?_, Or.inl ⟨rfl, rfl⟩⟩
    · simp [finishJob, failedRec]
    · simp [finishJob, failedRec]
  | s :: rest =>
    have hne : s :: rest ≠ [] := by simp
    have hfin : finishJob (s :: rest) = completedRec (aggregate (s :: rest)) := by
      simp [finishJob]
    refine ⟨?_, ?_, Or.inr ⟨hne, hfin⟩⟩
    · simp [hfin, completedRec]
    · simp [hfin, completedRec]

/-- **C4.** Each of the two scalar fields of the aggregated document equals the
last non-empty value supplied by the chunk sequence; empty values never
overwrite, and if no chunk supplies a non-empty value the field stays `""`
(`main.py` lines 329-337). -/
theorem spec_c4_scalars (l : List SummaryResponse) :
    (aggregate l).SessionName
      = ((l.map (·.SessionName)).filter fun x => x ≠ "").getLastD "" ∧
    (aggregate l).LanguageFocus
      = ((l.map (·.LanguageFocus)).filter fun x => x ≠ "").getLastD "" := by
  constructor
  · rw [aggregate, foldl_SessionName, foldl_keepNonEmpty_eq_getLastD]
    rfl
  · rw [aggregate, foldl_LanguageFocus, foldl_keepNonEmpty_eq_getLastD]
    rfl

/-- **C5.** The Chunk Extractor attempts every chunk (a per-chunk failure does
not abort the loop) and returns the pair of the total number of chunks and the
ordered list of exactly the successful chunks' summaries
(`transcript_processor.py` lines 203-298). -/
theorem spec_c5_extractor (oracle : Nat → List Char → Option SummaryResponse)
    (chunks : List (List Char)) :
    (extractChunks oracle chunks).1 = chunks.length ∧
    (extractChunks oracle chunks).2
      = (List.enum chunks).filterMap fun p => oracle p.1 p.2 := by
  have key : ∀ (l : List (List Char)) (start : Nat),
      runChunks oracle start l
        = (List.enumFrom start l).filterMap fun p => oracle p.1 p.2 := by
    intro l
    induction l with
    | nil => intro start; rfl
    | cons c rest ih =>
      intro start
      rw [List.enumFrom]
      simp only [runChunks, List.filterMap_cons]
      cases oracle start c with
      | none => exact ih (start + 1)
      | some s => rw [ih (start + 1)]
  exact ⟨rfl, key chunks 0⟩

/-- **C6.** Aggregating `N` chunk summaries that each contribute exactly one
block to the fixed Vocabulary section yields a final Vocabulary section with
exactly `N` blocks, where the block at position `i` comes from chunk `i`
(`main.py` lines 353-373). -/
theorem spec_c6_vocab (l : List SummaryResponse)
    (hb : ∀ s ∈ l, s.VocabularyLearned.blocks.length = 1) :
    (aggregate l).VocabularyLearned.title = "Vocabulary Learned" ∧
    (aggregate l).VocabularyLearned.blocks.length = l.length ∧
    ∀ i, (h1 : i < (aggregate l).VocabularyLearned.blocks.length) →
      (h2 : i < l.length) →
      (aggregate l).VocabularyLearned.blocks[i] ∈ l[i].VocabularyLearned.blocks := by
  have hmap : ∀ x ∈ l.map (·.VocabularyLearned.blocks), x.length = 1 := by
    intro x hx
    obtain ⟨s, hs, rfl⟩ := List.mem_map.mp hx
    exact hb s hs
  have hblocks : (aggregate l).VocabularyLearned.blocks
      = (l.map (·.VocabularyLearned.blocks)).flatten := by
    rw [aggregate, foldl_vocab_blocks]
    rfl
  refine ⟨?_, ?_, ?_⟩
  · rw [aggregate, foldl_vocab_title]
    rfl
  · rw [hblocks, join_singletons_length _ hmap, List.length_map]
  · intro i h1 h2
    have h1' : i < (l.map (·.VocabularyLearned.blocks)).flatten.length := by
      rw [hblocks] at h1
      exact h1
    have h2' : i < (l.map (·.VocabularyLearned.blocks)).length := by
      rw [List.length_map]
      exact h2
    have := join_singletons_getElem _ hmap i h1' h2'
    rw [List.getElem_map] at this
    simp only [hblocks]
    exact this

/-- Witness for C6 at a concrete two-chunk input. -/
theorem spec_c6_vocab_witness :
    (∀ s ∈ [vocabSummary 0, vocabSummary 1], s.VocabularyLearned.blocks.length = 1) ∧
    ((aggregate [vocabSummary 0, vocabSummary 1]).VocabularyLearned.title
        = "Vocabulary Learned" ∧
      (aggregate [vocabSummary 0, vocabSummary 1]).VocabularyLearned.blocks.length
        = [vocabSummary 0, vocabSummary 1].length ∧
      ∀ i, (h1 : i < (aggregate [vocabSummary 0,
          vocabSummary 1]).VocabularyLearned.blocks.length) →
        (h2 : i < [vocabSummary 0, vocabSummary 1].length) →
        (aggregate [vocabSummary 0, vocabSummary 1]).VocabularyLearned.blocks[i]
          ∈ [vocabSummary 0, vocabSummary 1][i].VocabularyLearned.blocks) :=
  ⟨by decide, spec_c6_vocab [vocabSummary 0, vocabSummary 1] (by decide)⟩

/-! ### Pipeline lemmas -/

lemma finishJob_chunk_count (l : List SummaryResponse) :
    (finishJob l).chunk_count = none := by
  unfold finishJob
  split
  · rfl
  · rfl

lemma runJob_chunk_count (oracle : Nat → List Char → Option SummaryResponse)
    (text : List Char) (chunkSize overlap : Int) :
    (runJob oracle text chunkSize overlap).1.chunk_count = none :=
  finishJob_chunk_count _

/-- **C7.** A job submitted with a hosted provider for which no credential is
stored fails with an error message before any chunk is attempted, and its
record carries no result and no chunk count (`main.py` lines 283-298,
433-448). -/
theorem spec_c7_missing_key (keys : String → Option String)
    (oracle : Nat → List Char → Option SummaryResponse)
    (text : List Char) (model modelName : String) (chunkSize overlap : Int)
    (hm : model ∈ hostedProviders) (hk : keys model = none) :
    (runPipeline keys oracle text model modelName chunkSize overlap).1.status = "failed" ∧
    (runPipeline keys oracle text model modelName chunkSize overlap).1.result = none ∧
    ((runPipeline keys oracle text model modelName chunkSize overlap).1.error).isSome
      = true ∧
    (runPipeline keys oracle text model modelName chunkSize overlap).1.chunk_count
      = none ∧
    (runPipeline keys oracle text model modelName chunkSize overlap).2 = 0 := by
  unfold runPipeline
  by_cases hw : text.all pyIsSpace = true
  · rw [if_pos hw]
    exact ⟨rfl, rfl, rfl, rfl, rfl⟩
  · rw [if_neg hw, if_pos ⟨hm, hk⟩]
    exact ⟨rfl, rfl, rfl, rfl, rfl⟩

/-- Witness for C7 at a concrete input (provider `claude`, empty credential
store, one-character transcript). -/
theorem spec_c7_missing_key_witness :
    "claude" ∈ hostedProviders ∧ keysNone "claude" = none ∧
    ((runPipeline keysNone oracleFailThird ['a'] "claude" "m" 5000 1000).1.status
        = "failed" ∧
      (runPipeline keysNone oracleFailThird ['a'] "claude" "m" 5000 1000).1.result
        = none ∧
      ((runPipeline keysNone oracleFailThird ['a'] "claude" "m" 5000 1000).1.error).isSome
        = true ∧
      (runPipeline keysNone oracleFailThird ['a'] "claude" "m" 5000 1000).1.chunk_count
        = none ∧
      (runPipeline keysNone oracleFailThird ['a'] "claude" "m" 5000 1000).2 = 0) :=
  ⟨by decide, rfl,
    spec_c7_missing_key keysNone oracleFailThird ['a'] "claude" "m" 5000 1000
      (by decide) rfl⟩

/-- **C10.** A submission whose transcript is empty or whitespace-only is
rejected before any chunking or provider call: the pipeline writes a failed
record with error `Empty transcript text provided` and zero chunks attempted
(`main.py` lines 283-285, 433-448). -/
theorem spec_c10_empty_text (keys : String → Option String)
    (oracle : Nat → List Char → Option SummaryResponse)
    (model modelName : String) (chunkSize overlap : Int)
    (text : List Char) (hw : text.all pyIsSpace = true) :
    runPipeline keys oracle text model modelName chunkSize overlap
      = (failedRec "Empty transcript text provided", 0) ∧
    (failedRec "Empty transcript text provided").status = "failed" ∧
    (failedRec "Empty transcript text provided").error
      = some "Empty transcript text provided" := by
  refine ⟨?_, rfl, rfl⟩
  unfold runPipeline
  rw [if_pos hw]

/-- Witness for C10 at a concrete whitespace-only input. -/
theorem spec_c10_empty_text_witness :
    ([' ', '\t'].all pyIsSpace = true) ∧
    (runPipeline keysNone oracleFailThird [' ', '\t'] "claude" "m" 5000 1000
        = (failedRec "Empty transcript text provided", 0) ∧
      (failedRec "Empty transcript text provided").status = "failed" ∧
      (failedRec "Empty transcript text provided").error
        = some "Empty transcript text provided") :=
  ⟨by decide,
    spec_c10_empty_text keysNone oracleFailThird "claude" "m" 5000 1000
      [' ', '\t'] (by decide)⟩

/-- **C9 counterexample.** A five-chunk job whose third chunk fails completes
with status `completed`, but the persisted record's `chunk_count` is `none`
(never written by the pipeline), not `5` as the claim states. -/
theorem spec_c9_counterexample :
    (runPipeline keysClaudeOnly oracleFailThird textTen "claude" "m" 2 0).2 = 5 ∧
    (runPipeline keysClaudeOnly oracleFailThird textTen "claude" "m" 2 0).1.status
      = "completed" ∧
    ¬ ((runPipeline keysClaudeOnly oracleFailThird textTen "claude" "m" 2 0).1.chunk_count
        = some 5) := by
  refine ⟨by decide, by decide, by decide⟩

/-- **C9 amended.** The pipeline never writes `chunk_count` (it stays absent in
every outcome), and the concrete five-chunk job with a failing third chunk
completes with 5 chunks attempted while the aggregated content reflects only
the 4 successful chunks (their Vocabulary blocks, in chunk order). -/
theorem spec_c9_chunk_count :
    (∀ (keys : String → Option String)
        (oracle : Nat → List Char → Option SummaryResponse)
        (text : List Char) (model modelName : String) (chunkSize overlap : Int),
      (runPipeline keys oracle text model modelName chunkSize overlap).1.chunk_count
        = none) ∧
    (runPipeline keysClaudeOnly oracleFailThird textTen "claude" "m" 2 0).1.status
      = "completed" ∧
    (runPipeline keysClaudeOnly oracleFailThird textTen "claude" "m" 2 0).2 = 5 ∧
    ((runPipeline keysClaudeOnly oracleFailThird textTen "claude" "m" 2 0).1.result).map
      (fun d => d.VocabularyLearned.blocks.map fun b => b.id)
      = some ["0", "1", "3", "4"] := by
  refine ⟨?_, by decide, by decide, by decide⟩
  intro keys oracle text model modelName chunkSize overlap
  unfold runPipeline
  split
  · rfl
  · split
    · rfl
    · split
      · rfl
      · split
        · exact runJob_chunk_count _ _ _ _
        · split
          · exact runJob_chunk_count _ _ _ _
          · rfl

/-- **C3 counterexample.** Two chunk summaries whose Key Phrases sections are
titled `"Key Phrases"` and `"Key phrases"` normalize to the same key, yet the
flattened notes view contains two entries whose titles normalize to that key —
not a single merged entry. -/
theorem spec_c3_counterexample :
    normalizeTitle "Key Phrases" = normalizeTitle "Key phrases" ∧
    ¬ (((flattenSections
          (aggregate [kpSummaryUpper cBlock1,
            kpSummaryLower cBlock2]).SessionNotes.sections).filter
          fun p => normalizeTitle p.2.title = "key_phrases").length = 1) := by
  refine ⟨by decide, by decide⟩

/-- **C3 amended.** Case-different titles normalize to the same base key, but
the flattened view keeps them as two separate entries: the first under the
base key with only the first chunk's blocks, the later one under the base key
suffixed with its positional index, with only the second chunk's blocks —
blocks are merged only between sections whose titles match exactly. -/
theorem spec_c3_flatten_disambiguates :
    (flattenSections (aggregate [kpSummaryUpper cBlock1,
        kpSummaryLower cBlock2]).SessionNotes.sections).map Prod.fst
      = ["people", "vocabulary_learned", "grammar_points", "pronunciation_notes",
         "conversation_topics", "corrections_made", "key_phrases", "homework",
         "progress_notes", "key_phrases_9"] ∧
    ((flattenSections (aggregate [kpSummaryUpper cBlock1,
        kpSummaryLower cBlock2]).SessionNotes.sections).filter
        fun p => p.1 = "key_phrases").map (fun p => p.2.blocks) = [[cBlock1]] ∧
    ((flattenSections (aggregate [kpSummaryUpper cBlock1,
        kpSummaryLower cBlock2]).SessionNotes.sections).filter
        fun p => p.1 = "key_phrases_9").map (fun p => p.2.blocks) = [[cBlock2]] := by
  refine ⟨by decide, by decide, by decide⟩

/-! ### Windower theorems -/

lemma clampParams_of_valid (width overlap : Int) (hw : 0 < width) (ho : 0 ≤ overlap) :
    clampParams width overlap
      = .ok (width, if width ≤ overlap then width - 1 else overlap) := by
  unfold clampParams
  rw [if_neg (by omega), if_neg (by omega)]
  by_cases hc : width ≤ overlap
  · show Except.ok
      (if width - (if width ≤ overlap then width - 1 else overlap) ≤ 0
        then (if width ≤ overlap then width - 1 else overlap) + 1 else width,
        if width ≤ overlap then width - 1 else overlap) = _
    rw [if_pos hc, if_neg (show ¬ width - (width - 1) ≤ 0 by omega)]
  · show Except.ok
      (if width - (if width ≤ overlap then width - 1 else overlap) ≤ 0
        then (if width ≤ overlap then width - 1 else overlap) + 1 else width,
        if width ≤ overlap then width - 1 else overlap) = _
    rw [if_neg hc, if_neg (show ¬ width - overlap ≤ 0 by omega)]

lemma windower_of_valid (text : List Char) (width overlap : Int)
    (hw : 0 < width) (ho : 0 ≤ overlap) :
    windower text width overlap
      = .ok (makeChunks text width.toNat
          (width - if width ≤ overlap then width - 1 else overlap).toNat) := by
  have hpos : ¬ (width - (if width ≤ overlap then width - 1 else overlap) ≤ 0) := by
    split <;> omega
  unfold windower
  rw [clampParams_of_valid width overlap hw ho]
  show Except.ok (makeChunks text width.toNat
    ((if width - (if width ≤ overlap then width - 1 else overlap) ≤ 0
      then (width - max 0 (width - 100), max 0 (width - 100))
      else (width - (if width ≤ overlap then width - 1 else overlap),
        if width ≤ overlap then width - 1 else overlap)).1).toNat) = _
  rw [if_neg hpos]

/-- The properties, as the claim states them, of a windowing output `chunks`
on `text` with window size `width` and effective stride `step`: the stride is
at least 1, chunk `i` exists exactly while `i * step < len(text)` and equals
`text[i*step : i*step + width]`, and the chunks' offset ranges together cover
every index of the text. -/
def windowerOutputSpec (text : List Char) (width step : Nat)
    (chunks : List (List Char)) : Prop :=
  1 ≤ step ∧
  (∀ i, i < chunks.length ↔ i * step < text.length) ∧
  (∀ i, (h : i < chunks.length) → chunks[i] = (text.drop (i * step)).take width) ∧
  (∀ j, j < text.length →
    ∃ i, i * step < text.length ∧ i * step ≤ j ∧ j < i * step + width)

lemma makeChunks_spec (text : List Char) (width step : Nat)
    (hstep : 0 < step) (hsw : step ≤ width) :
    windowerOutputSpec text width step (makeChunks text width step) := by
  have hlen : (makeChunks text width step).length = (pyRange text.length step).length := by
    rw [makeChunks, List.length_map]
  refine ⟨hstep, ?_, ?_, ?_⟩
  · intro i
    rw [hlen]
    exact lt_pyRange_length_iff text.length step hstep i
  · intro i h
    have h' : i < (pyRange text.length step).length := by rw [← hlen]; exact h
    simp only [makeChunks, List.getElem_map]
    rw [pyRange_getElem text.length step hstep i h']
  · intro j hj
    refine ⟨j / step, ?_, Nat.div_mul_le_self j step, ?_⟩
    · exact lt_of_le_of_lt (Nat.div_mul_le_self j step) hj
    · have e1 : step * (j / step) + j % step = j := Nat.div_add_mod j step
      have e2 : j % step < step := Nat.mod_lt j hstep
      rw [Nat.mul_comm (j / step) step]
      generalize step * (j / step) = m at e1 ⊢
      omega

/-- **C1.** For every text and all `width > 0`, `overlap ≥ 0`, the Windower
produces the ordered chunk sequence `chunk[i] = text[i*step : i*step + width]`
with `step = width - overlap` after clamping, for `i` while
`i*step < len(text)`; the effective step is at least 1 and the chunks' offset
ranges cover every index of the text; and a text of length 12000 with
`width = 5000`, `overlap = 1000` yields exactly the 3 chunks at offsets
`[0, 5000)`, `[4000, 9000)`, `[8000, 12000)`
(`main.py` lines 164-175, `transcript_processor.py` lines 195-205). -/
theorem spec_c1_windower (text : List Char) (width overlap : Int)
    (hw : 0 < width) (ho : 0 ≤ overlap)
    (t12 : List Char) (h12 : t12.length = 12000) :
    (∃ chunks, windower text width overlap = .ok chunks ∧
      windowerOutputSpec text width.toNat
        (width - if width ≤ overlap then width - 1 else overlap).toNat chunks) ∧
    windower t12 5000 1000
      = .ok [t12.take 5000, (t12.drop 4000).take 5000, (t12.drop 8000).take 5000] ∧
    [t12.take 5000, (t12.drop 4000).take 5000, (t12.drop 8000).take 5000].map
      List.length = [5000, 5000, 4000] := by
  refine ⟨?_, ?_, ?_⟩
  · refine ⟨makeChunks text width.toNat
      (width - if width ≤ overlap then width - 1 else overlap).toNat,
      windower_of_valid text width overlap hw ho, ?_⟩
    apply makeChunks_spec
    · split <;> omega
    · split <;> omega
  · have h5 : windower t12 5000 1000 = .ok (makeChunks t12 5000 4000) := rfl
    have h6 : makeChunks t12 5000 4000
        = [t12.take 5000, (t12.drop 4000).take 5000, (t12.drop 8000).take 5000] := by
      show (pyRange t12.length 4000).map (fun i => (t12.drop i).take 5000) = _
      rw [h12, show pyRange 12000 4000 = [0, 4000, 8000] from by decide]
      simp
    rw [h5, h6]
  · simp [h12]

/-- Witness for C1 at a concrete input: text `['a']` with width 5000 and
overlap 1000, and the replicated 12000-character text. -/
theorem spec_c1_windower_witness :
    (0 : Int) < 5000 ∧ (0 : Int) ≤ 1000 ∧
    (List.replicate 12000 'a').length = 12000 ∧
    ((∃ chunks, windower ['a'] 5000 1000 = .ok chunks ∧
        windowerOutputSpec ['a'] (5000 : Int).toNat
          ((5000 : Int) - if (5000 : Int) ≤ 1000 then (5000 : Int) - 1 else 1000).toNat
          chunks) ∧
      windower (List.replicate 12000 'a') 5000 1000
        = .ok [(List.replicate 12000 'a').take 5000,
            ((List.replicate 12000 'a').drop 4000).take 5000,
            ((List.replicate 12000 'a').drop 8000).take 5000] ∧
      [(List.replicate 12000 'a').take 5000,
        ((List.replicate 12000 'a').drop 4000).take 5000,
        ((List.replicate 12000 'a').drop 8000).take 5000].map List.length
        = [5000, 5000, 4000]) :=
  ⟨by decide, by decide, by rw [List.length_replicate],
    spec_c1_windower ['a'] 5000 1000 (by decide) (by decide)
      (List.replicate 12000 'a') (by rw [List.length_replicate])⟩

/-- **C8.** Parameters from which no positive windowing step can be obtained
with a non-negative overlap (that is, `width ≤ 0`) make the Windower raise the
configuration error instead of producing chunks, while the other degenerate
inputs (`overlap ≥ width > 0`) are repaired by clamping the overlap to
`width - 1` and windowing proceeds without error with step 1
(`main.py` lines 164-175). -/
theorem spec_c8_degenerate (width overlap : Int) (ho : 0 ≤ overlap)
    (text : List Char) :
    (width ≤ 0 → windower text width overlap = .error "chunk_size must be positive") ∧
    (0 < width → width ≤ overlap →
      clampParams width overlap = .ok (width, width - 1) ∧
      windower text width overlap = .ok (windowChunks text width (width - 1)) ∧
      (1 : Int) ≤ width - (width - 1)) := by
  constructor
  · intro hle
    unfold windower clampParams
    rw [if_pos hle]
  · intro hw hov
    have hcl : clampParams width overlap = .ok (width, width - 1) := by
      rw [clampParams_of_valid width overlap hw ho, if_pos hov]
    refine ⟨hcl, ?_, by omega⟩
    unfold windower
    rw [hcl]

/-- Witness for C8 at concrete inputs: `width = -3` errors, and
`width = 5, overlap = 7` is repaired by clamping. -/
theorem spec_c8_degenerate_witness :
    (0 : Int) ≤ 7 ∧ (0 : Int) < 5 ∧ (5 : Int) ≤ 7 ∧
    (clampParams 5 7 = .ok (5, 5 - 1) ∧
      windower ['a'] 5 7 = .ok (windowChunks ['a'] 5 (5 - 1)) ∧
      (1 : Int) ≤ 5 - (5 - 1)) ∧
    ((-3 : Int) ≤ 0 ∧ windower ['a'] (-3) 7 = .error "chunk_size must be positive") :=
  ⟨by decide, by decide, by decide,
    (spec_c8_degenerate 5 7 (by decide) ['a']).2 (by decide) (by decide),
    by decide, (spec_c8_degenerate (-3) 7 (by decide) ['a']).1 (by decide)⟩

end Uchitil
